import Mathlib

/-!
Shallow embedding of the authentication / session-token subsystem and the
birthday-window query of the `fastapi-contacts-auth-mail` repository,
together with proofs of the specification claims about it.

Conventions of the embedding:
* Python `datetime.date` values are triples year/month/day (`PyDate`);
  `date ± timedelta(days=n)` is the n-fold calendar successor/predecessor.
* Time is measured in integral seconds (`Nat`); `datetime.utcnow()` becomes
  an explicit `now` parameter.
* A JWT is either a well-signed encoding of a claim set (`Token.signed`)
  or an unverifiable string (`Token.malformed`); distinct claim sets encode
  to distinct strings, so token-string equality is `Token` equality.
* Stateful handlers become pure functions returning their result together
  with the updated database / cache state.  Python exceptions that escape a
  handler (`KeyError`, `AttributeError`, `NameError`) are explicit error
  values, distinguished from deliberately raised `HTTPException`s.
-/

/-! ## Calendar model (`datetime.date`) -/

/-- A Python `datetime.date`: a year/month/day triple. -/
structure PyDate where
  year : Nat
  month : Nat
  day : Nat
deriving DecidableEq, Repr

/-- Gregorian leap-year rule, as in `calendar.isleap`. -/
def isLeapYear (y : Nat) : Bool :=
  (y % 4 == 0 && y % 100 != 0) || y % 400 == 0

/-- Number of days in a month of a given year. -/
def daysInMonth (y m : Nat) : Nat :=
  if m = 2 then (if isLeapYear y then 29 else 28)
  else if m = 4 ∨ m = 6 ∨ m = 9 ∨ m = 11 then 30
  else 31

/-- Validity of a year/month/day triple as a calendar date. -/
def PyDate.valid (d : PyDate) : Prop :=
  1 ≤ d.month ∧ d.month ≤ 12 ∧ 1 ≤ d.day ∧ d.day ≤ daysInMonth d.year d.month

instance (d : PyDate) : Decidable d.valid := by
  unfold PyDate.valid
  exact inferInstance

/-- The calendar day after `d`. -/
def nextDay (d : PyDate) : PyDate :=
  if d.day < daysInMonth d.year d.month then ⟨d.year, d.month, d.day + 1⟩
  else if d.month < 12 then ⟨d.year, d.month + 1, 1⟩
  else ⟨d.year + 1, 1, 1⟩

/-- The calendar day before `d`. -/
def prevDay (d : PyDate) : PyDate :=
  if 1 < d.day then ⟨d.year, d.month, d.day - 1⟩
  else if 1 < d.month then ⟨d.year, d.month - 1, daysInMonth d.year (d.month - 1)⟩
  else ⟨d.year - 1, 12, 31⟩

/-- Python `d + timedelta(days=n)`. -/
def addDays (d : PyDate) (n : Nat) : PyDate := nextDay^[n] d

/-- Python `d - timedelta(days=n)`. -/
def subDays (d : PyDate) (n : Nat) : PyDate := prevDay^[n] d

/-- Python `date` strict comparison (lexicographic on year, month, day). -/
def dateLt (a b : PyDate) : Bool :=
  a.year < b.year ||
    (a.year == b.year &&
      (a.month < b.month || (a.month == b.month && a.day < b.day)))

/-- Python `date` non-strict comparison. -/
def dateLe (a b : PyDate) : Bool :=
  dateLt a b || a == b

/-- Python `d.replace(year=y)`: `none` models the raised `ValueError` when
the day does not exist in the target month/year. -/
def PyDate.replaceYear (d : PyDate) (y : Nat) : Option PyDate :=
  if d.day ≤ daysInMonth y d.month then some ⟨y, d.month, d.day⟩ else none

/-! ## Contacts and the birthday-window query
(`src/repository/contacts.py`, `get_contact_birthdays_along_week`) -/

/-- A row of the `contacts` table (`src/database/models.py`); the owning
`user_id` is modelled by querying with the owner's contact list. -/
structure Contact where
  id : Nat
  name : String
  lastname : String
  email : String
  phone : String
  birthday : PyDate
  note : String
deriving DecidableEq, Repr

/-- The body of the `try`/`except ValueError` block of
`get_contact_birthdays_along_week`: shift the birthday, replace its year
with the (already shifted) current year, and on `ValueError` advance the
shifted birthday one day (February 29 to March 1) and replace again.
`none` models an exception escaping the handler. -/
def normalize_bday (shift : Nat) (year : Nat) (birthday : PyDate) : Option PyDate :=
  let bday := subDays birthday shift
  match bday.replaceYear year with
  | some b => some b
  | none => (addDays bday 1).replaceYear year

/-- The `for contact in contacts` loop of `get_contact_birthdays_along_week`,
appending the contacts whose normalized birthday lies in `[today, today_over_week)`. -/
def birthdays_loop (shift : Nat) (today today_over_week : PyDate) :
    List Contact → Option (List Contact)
  | [] => some []
  | contact :: rest =>
    match normalize_bday shift today.year contact.birthday with
    | none => none
    | some bday =>
      match birthdays_loop shift today today_over_week rest with
      | none => none
      | some acc =>
        some (if dateLe today bday && dateLt bday today_over_week
              then contact :: acc else acc)

/-- `get_contact_birthdays_along_week` (`src/repository/contacts.py:95-134`),
parameterized by the user's contact list and the reference date `today`
(`date.today()` in the source).  If `today`'s 7-day window crosses a year
boundary, the window endpoints and every birthday are shifted back 14 days
before the year replacement and comparison. -/
def get_contact_birthdays_along_week (contacts : List Contact) (today₀ : PyDate) :
    Option (List Contact) :=
  let today_over_week₀ := addDays today₀ 7
  let date_shift : Nat := if today₀.year < today_over_week₀.year then 14 else 0
  let today := subDays today₀ date_shift
  let today_over_week := subDays today_over_week₀ date_shift
  birthdays_loop date_shift today today_over_week contacts

/-- Modelled from the spec (§4.6): normalization of a (shifted) birthday to
the current (shifted) year — replace the year, with a February 29 birthday
in a non-leap target year rolling forward to March 1. -/
def specNormalize (shift year : Nat) (birthday : PyDate) : PyDate :=
  let b₀ := subDays birthday shift
  if b₀.month = 2 ∧ b₀.day = 29 ∧ ¬ isLeapYear year then ⟨year, 3, 1⟩
  else ⟨year, b₀.month, b₀.day⟩

/-- Modelled from the spec (§4.6): membership of a birthday in the half-open
7-day window `[today, today+7)`, birth year ignored.  Normalization replaces
the birthday's year by today's year; a February 29 birthday in a non-leap
current year rolls forward to March 1; if today's year differs from
`(today+7)`'s year, both window endpoints and the birthday are first shifted
back by 14 days.  This is the spec-side refinement target for the code above. -/
def specBirthdayInWindow (today₀ : PyDate) (birthday : PyDate) : Bool :=
  let tow₀ := addDays today₀ 7
  let shift : Nat := if today₀.year ≠ tow₀.year then 14 else 0
  let t := subDays today₀ shift
  let w := subDays tow₀ shift
  dateLe t (specNormalize shift t.year birthday)
    && dateLt (specNormalize shift t.year birthday) w

/-! ## Tokens and JWT claim sets (`src/services/auth.py`, class `Auth`) -/

/-- The claim set carried by a JWT minted by this service: every minting
path sets `sub`, `iat` and `exp`; `create_access_token` and
`create_refresh_token` add a `scope` claim, `create_email_token` does not. -/
structure Payload where
  sub : String
  iat : Nat
  exp : Nat
  scope : Option String
deriving DecidableEq, Repr

/-- A token string: either the well-signed encoding of a claim set under the
server secret (JWT encoding of distinct claim sets yields distinct strings),
or any string that fails signature/structure verification. -/
inductive Token
  | signed (payload : Payload)
  | malformed
deriving DecidableEq, Repr

/-- `jose.jwt.decode(token, SECRET_KEY, algorithms=[ALGORITHM])`: returns the
claim set of a well-signed, unexpired token and raises `JWTError` (modelled
as `Except.error ()`) on a bad signature, malformed structure, or expiry. -/
def jwt_decode (t : Token) (now : Nat) : Except Unit Payload :=
  match t with
  | .signed p => if now < p.exp then .ok p else .error ()
  | .malformed => .error ()

/-- Errors escaping a handler: a deliberately raised `HTTPException`, or an
uncaught Python exception. -/
inductive PyErr
  | http (status : Nat) (detail : String)
  | keyError
  | attributeError
  | nameError
deriving DecidableEq, Repr

/-- Result of a request handler. -/
abbrev Res (α : Type) := Except PyErr α

/-! ## User store (`src/database/models.py`, `src/repository/users.py`) -/

/-- A row of the `users` table. -/
structure User where
  id : Nat
  username : String
  email : String
  password : String
  avatar : Option String
  refresh_token : Option Token
  confirmed : Bool
deriving DecidableEq, Repr

/-- The `users` table, in row order. -/
abbrev Db := List User

/-- SQL `func.lower`, per-character ASCII lowering of an email string. -/
def pyLower (s : String) : String := ⟨s.data.map Char.toLower⟩

deriving instance DecidableEq for Except

namespace users

/-- `get_user_by_email` (`src/repository/users.py:10-22`):
first row whose email matches case-insensitively. -/
def get_user_by_email (email : String) (db : Db) : Option User :=
  db.find? (fun u => pyLower u.email == pyLower email)

/-- `update_token` (`src/repository/users.py:50-63`): store `token` in the
user's `refresh_token` column (`none` clears it). -/
def update_token (user : User) (token : Option Token) (db : Db) : Db :=
  db.map (fun u => if u.id = user.id then { u with refresh_token := token } else u)

/-- `confirmed_email` (`src/repository/users.py:84-97`): look the user up by
email and set the `confirmed` column; `user.confirmed = True` on an absent
user would raise `AttributeError`. -/
def confirmed_email (email : String) (db : Db) : Res Db :=
  match get_user_by_email email db with
  | none => .error .attributeError
  | some user =>
    .ok (db.map fun u => if u.id = user.id then { u with confirmed := true } else u)

/-- `reset_password_new` (`src/repository/users.py:100-115`).  The function
body reads `user = await get_user_by_email(email, db)`, but no name `email`
is bound in its scope (its parameters are `user`, `password`, `db`): the
first statement raises `NameError` on every call, before any state change. -/
def reset_password_new (user : User) (password : String) (db : Db) : Res Db :=
  .error .nameError

end users

/-! ## Auth service (`src/services/auth.py`) -/

namespace Auth

/-- Truthiness of the optional `expires_delta` argument
(`if expires_delta:` in the source is false for both `None` and `0`). -/
def truthy : Option Nat → Bool
  | none => false
  | some d => d ≠ 0

/-- Bcrypt hash of a password, abstracted to an injective tagging
(`Auth.get_password_hash`, `src/services/auth.py:38-47`). -/
def get_password_hash (password : String) : String :=
  "bcrypt$" ++ password

/-- `Auth.verify_password` (`src/services/auth.py:25-36`). -/
def verify_password (plain_password hashed_password : String) : Bool :=
  get_password_hash plain_password == hashed_password

/-- `Auth.create_access_token` (`src/services/auth.py:50-74`): expiry is
`now + expires_delta` seconds when the override is truthy, else
`now + 15 minutes`; the claim set gets `scope = "access_token"`. -/
def create_access_token (data_sub : String) (expires_delta : Option Nat)
    (now : Nat) : Payload :=
  let expire := if truthy expires_delta then now + expires_delta.getD 0
                else now + 15 * 60
  { sub := data_sub, iat := now, exp := expire, scope := some "access_token" }

/-- `Auth.create_refresh_token` (`src/services/auth.py:77-101`): expiry is
`now + expires_delta` seconds when the override is truthy, else
`now + 7 days`; the claim set gets `scope = "refresh_token"`. -/
def create_refresh_token (data_sub : String) (expires_delta : Option Nat)
    (now : Nat) : Payload :=
  let expire := if truthy expires_delta then now + expires_delta.getD 0
                else now + 7 * 24 * 60 * 60
  { sub := data_sub, iat := now, exp := expire, scope := some "refresh_token" }

/-- `Auth.create_email_token` (`src/services/auth.py:184-199`): expiry is
`now + days` (default 7) days; no `scope` claim is added. -/
def create_email_token (data_sub : String) (days : Nat) (now : Nat) : Payload :=
  { sub := data_sub, iat := now, exp := now + days * 24 * 60 * 60, scope := none }

/-- `Auth.decode_refresh_token` (`src/services/auth.py:103-122`): decode the
token; accept only `scope == "refresh_token"` and return the subject, else
raise 401 `Invalid scope for token`; `JWTError` becomes 401
`Could not validate credentials`.  A signed claim set without a `scope`
claim would raise an uncaught `KeyError` at `payload['scope']`. -/
def decode_refresh_token (token : Token) (now : Nat) : Res String :=
  match jwt_decode token now with
  | .error _ => .error (.http 401 "Could not validate credentials")
  | .ok payload =>
    match payload.scope with
    | none => .error .keyError
    | some s =>
      if s = "refresh_token" then .ok payload.sub
      else .error (.http 401 "Invalid scope for token")

/-- The 401 `credentials_exception` of `Auth.get_current_user`. -/
def credentials_exception : PyErr := .http 401 "Could not validate credentials"

/-- `Auth.get_email_from_token` (`src/services/auth.py:164-182`): decode and
return the subject, with no scope check; `JWTError` becomes 422. -/
def get_email_from_token (token : Token) (now : Nat) : Res String :=
  match jwt_decode token now with
  | .ok payload => .ok payload.sub
  | .error _ => .error (.http 422 "Invalid token for email verification")

/-- An entry of the redis session cache: the pickled user row and the
absolute expiry instant set by `EXPIRE`. -/
structure CacheEntry where
  value : User
  expire_at : Nat
deriving DecidableEq, Repr

/-- The redis session cache keyed by strings. -/
abbrev Redis := List (String × CacheEntry)

/-- `await self.rds.get(key)`: the stored value if present and not expired. -/
def rds_get (r : Redis) (key : String) (now : Nat) : Option User :=
  match r.find? (fun e => e.1 == key) with
  | some (_, e) => if now < e.expire_at then some e.value else none
  | none => none

/-- `await self.rds.set(key, pickle.dumps(user))` followed by
`await self.rds.expire(key, ttl)`: overwrite the entry, expiring `ttl`
seconds from now. -/
def rds_set_expire (r : Redis) (key : String) (v : User) (ttl now : Nat) : Redis :=
  (key, ⟨v, now + ttl⟩) :: r.filter (fun e => e.1 ≠ key)

/-- `Auth.get_current_user` (`src/services/auth.py:124-162`): decode the
token and require `scope == "access_token"`; consult the cache at key
`"user:" ++ sub`; on a miss load the user from the store (401 when absent)
and write it through to the cache with a 900-second TTL; on a hit return
the cached row.  Returns the result and the updated cache. -/
def get_current_user (token : Token) (rds : Redis) (db : Db) (now : Nat) :
    Res User × Redis :=
  match jwt_decode token now with
  | .error _ => (.error credentials_exception, rds)
  | .ok payload =>
    match payload.scope with
    | none => (.error .keyError, rds)
    | some s =>
      if s = "access_token" then
        let email := payload.sub
        match rds_get rds ("user:" ++ email) now with
        | none =>
          match users.get_user_by_email email db with
          | none => (.error credentials_exception, rds)
          | some user =>
            (.ok user, rds_set_expire rds ("user:" ++ email) user 900 now)
        | some user => (.ok user, rds)
      else (.error credentials_exception, rds)

end Auth

/-! ## Email collaborators (`src/services/email.py`): only the token each
one embeds in the outgoing mail matters to the core. -/

namespace email_service

/-- Token minted by `send_email_verification`:
`auth_service.create_email_token({"sub": email})`, default 7 days. -/
def send_email_verification_token (email : String) (now : Nat) : Payload :=
  Auth.create_email_token email 7 now

/-- Token minted by `send_email_reset_password`:
`auth_service.create_email_token({"sub": email}, days=1)`. -/
def send_email_reset_password_token (email : String) (now : Nat) : Payload :=
  Auth.create_email_token email 1 now

end email_service

/-! ## Route handlers (`src/routes/auth.py`) -/

namespace routes

/-- `refresh_token` (`src/routes/auth.py:175-204`): decode the presented
refresh token; look the user up by the decoded subject (an absent user makes
`user.refresh_token` raise `AttributeError`); if the stored refresh token
differs, clear it and raise 401 `Invalid refresh token`; otherwise mint a
fresh access+refresh pair and store the new refresh token. -/
def refresh_token (credentials : Token) (db : Db) (now : Nat) :
    Res (Token × Token) × Db :=
  match Auth.decode_refresh_token credentials now with
  | .error e => (.error e, db)
  | .ok email =>
    match users.get_user_by_email email db with
    | none => (.error .attributeError, db)
    | some user =>
      if user.refresh_token ≠ some credentials then
        (.error (.http 401 "Invalid refresh token"), users.update_token user none db)
      else
        let access_token := Token.signed (Auth.create_access_token email none now)
        let new_refresh := Token.signed (Auth.create_refresh_token email none now)
        (.ok (access_token, new_refresh),
          users.update_token user (some new_refresh) db)

/-- `confirmed_email` (`src/routes/auth.py:207-231`): recover the subject
from the action token (422 on a bad token); 400 `Verification error` when no
such user; answer idempotently when already confirmed; else set the flag. -/
def confirmed_email (token : Token) (db : Db) (now : Nat) : Res String × Db :=
  match Auth.get_email_from_token token now with
  | .error e => (.error e, db)
  | .ok email =>
    match users.get_user_by_email email db with
    | none => (.error (.http 400 "Verification error"), db)
    | some user =>
      if user.confirmed then (.ok "Your email is already confirmed", db)
      else
        match users.confirmed_email email db with
        | .error e => (.error e, db)
        | .ok db' => (.ok "Email confirmed", db')

/-- `reset_password_new` (`src/routes/auth.py:143-172`): recover the subject
from the action token; 406 `Invalid email` when no such user; else hash the
submitted password and delegate to `users.reset_password_new`. -/
def reset_password_new (token : Token) (password : String) (db : Db) (now : Nat) :
    Res String × Db :=
  match Auth.get_email_from_token token now with
  | .error e => (.error e, db)
  | .ok email =>
    match users.get_user_by_email email db with
    | none => (.error (.http 406 "Invalid email"), db)
    | some user =>
      let hashed := Auth.get_password_hash password
      match users.reset_password_new user hashed db with
      | .error e => (.error e, db)
      | .ok db' => (.ok "User password is successfully changed.", db')

/-- `request_email` (`src/routes/auth.py:234-259`): the handler reads
`user.confirmed` before any `None` check, so an absent user raises
`AttributeError`; the boolean records whether the verification-mail
background task was queued. -/
def request_email (email : String) (db : Db) : Res String × Bool :=
  match users.get_user_by_email email db with
  | none => (.error .attributeError, false)
  | some user =>
    if user.confirmed then (.ok "Your email is already confirmed", false)
    else (.ok "Check your email for confirmation.", true)

end routes

/-! ## Supporting lemmas -/

/-- A case-insensitive email lookup commutes with an email-preserving row
update: the same row is found, updated. -/
theorem get_user_by_email_map (g : User → User) (hg : ∀ v, (g v).email = v.email)
    (email : String) (db : Db) (u : User)
    (h : users.get_user_by_email email db = some u) :
    users.get_user_by_email email (db.map g) = some (g u) := by
  induction db with
  | nil => simp [users.get_user_by_email] at h
  | cons x rest ih =>
    unfold users.get_user_by_email at h ih ⊢
    rw [List.map_cons, List.find?_cons, hg x]
    rw [List.find?_cons] at h
    cases hx : (pyLower x.email == pyLower email) with
    | false =>
      rw [hx] at h
      exact ih h
    | true =>
      rw [hx] at h
      have hxu : x = u := by injection h
      rw [hxu]

/-- Reading back a cache entry written with `SET` + `EXPIRE ttl`:
present exactly until the TTL elapses. -/
theorem rds_get_set_expire (r : Auth.Redis) (key : String) (v : User)
    (ttl now later : Nat) :
    Auth.rds_get (Auth.rds_set_expire r key v ttl now) key later
      = if later < now + ttl then some v else none := by
  simp [Auth.rds_get, Auth.rds_set_expire, List.find?]

/-- Every month has at least one day. -/
theorem one_le_daysInMonth (y m : Nat) : 1 ≤ daysInMonth y m := by
  unfold daysInMonth
  split
  · split <;> omega
  · split <;> omega

/-- The calendar successor of a valid date is valid. -/
theorem valid_nextDay {d : PyDate} (h : d.valid) : (nextDay d).valid := by
  obtain ⟨h1, h2, h3, h4⟩ := h
  have hm1 := one_le_daysInMonth d.year (d.month + 1)
  have hy1 := one_le_daysInMonth (d.year + 1) 1
  unfold nextDay
  by_cases hd : d.day < daysInMonth d.year d.month
  · rw [if_pos hd]
    refine ⟨?_, ?_, ?_, ?_⟩ <;> dsimp only <;> omega
  · rw [if_neg hd]
    by_cases hm : d.month < 12
    · rw [if_pos hm]
      refine ⟨?_, ?_, ?_, ?_⟩ <;> dsimp only <;> omega
    · rw [if_neg hm]
      refine ⟨?_, ?_, ?_, ?_⟩ <;> dsimp only <;> omega

/-- The calendar predecessor of a valid date is valid. -/
theorem valid_prevDay {d : PyDate} (h : d.valid) : (prevDay d).valid := by
  obtain ⟨h1, h2, h3, h4⟩ := h
  have hm1 := one_le_daysInMonth d.year (d.month - 1)
  have h12 : daysInMonth (d.year - 1) 12 = 31 := by
    unfold daysInMonth
    norm_num
  unfold prevDay
  by_cases hd : 1 < d.day
  · rw [if_pos hd]
    refine ⟨?_, ?_, ?_, ?_⟩ <;> dsimp only <;> omega
  · rw [if_neg hd]
    by_cases hm : 1 < d.month
    · rw [if_pos hm]
      refine ⟨?_, ?_, ?_, ?_⟩ <;> dsimp only <;> omega
    · rw [if_neg hm]
      refine ⟨?_, ?_, ?_, ?_⟩ <;> dsimp only <;> omega

/-- Shifting a valid date back by any number of days keeps it valid. -/
theorem valid_subDays {d : PyDate} (h : d.valid) (n : Nat) : (subDays d n).valid := by
  induction n with
  | zero => exact h
  | succ k ih =>
    have : subDays d (k + 1) = prevDay (subDays d k) := Function.iterate_succ_apply' _ _ _
    rw [this]
    exact valid_prevDay ih

/-- The calendar successor never decreases the year. -/
theorem year_le_nextDay (d : PyDate) : d.year ≤ (nextDay d).year := by
  unfold nextDay
  by_cases hd : d.day < daysInMonth d.year d.month
  · rw [if_pos hd]
  · rw [if_neg hd]
    by_cases hm : d.month < 12
    · rw [if_pos hm]
    · rw [if_neg hm]
      dsimp only
      omega

/-- Adding days never decreases the year. -/
theorem year_le_addDays (d : PyDate) (n : Nat) : d.year ≤ (addDays d n).year := by
  induction n with
  | zero => exact le_refl _
  | succ k ih =>
    have : addDays d (k + 1) = nextDay (addDays d k) := Function.iterate_succ_apply' _ _ _
    rw [this]
    exact le_trans ih (year_le_nextDay _)

/-- The day after a (valid) February 29 is March 1 of the same year. -/
theorem nextDay_feb29 {y : Nat} (h : isLeapYear y = true) :
    nextDay ⟨y, 2, 29⟩ = ⟨y, 3, 1⟩ := by
  have hdim : daysInMonth y 2 = 29 := by
    unfold daysInMonth
    rw [if_pos rfl, if_pos h]
  unfold nextDay
  rw [hdim]
  norm_num

/-- The `try`/`except` normalization of the source computes exactly the
spec's normalization (year replacement with February 29 of a non-leap
target year rolling forward to March 1), and never lets an exception
escape, for any valid birthday. -/
theorem normalize_bday_eq (shift Y : Nat) (b : PyDate) (hb : b.valid) :
    normalize_bday shift Y b = some (specNormalize shift Y b) := by
  have hb0 : (subDays b shift).valid := valid_subDays hb shift
  have hY2 : 28 ≤ daysInMonth Y 2 ∧ daysInMonth Y 2 ≤ 29 := by
    unfold daysInMonth
    rw [if_pos rfl]
    cases isLeapYear Y <;> simp
  have hb02 : 28 ≤ daysInMonth (subDays b shift).year 2
      ∧ daysInMonth (subDays b shift).year 2 ≤ 29 := by
    unfold daysInMonth
    rw [if_pos rfl]
    cases isLeapYear (subDays b shift).year <;> simp
  unfold normalize_bday specNormalize
  obtain ⟨h1, h2, h3, h4⟩ := hb0
  by_cases hok : (subDays b shift).day ≤ daysInMonth Y (subDays b shift).month
  · -- `replace` succeeds: no roll-forward is possible
    have hcond : ¬((subDays b shift).month = 2 ∧ (subDays b shift).day = 29
        ∧ ¬ isLeapYear Y) := by
      rintro ⟨hm, hd, hl⟩
      rw [hm, hd] at hok
      have h28 : daysInMonth Y 2 = 28 := by
        unfold daysInMonth
        rw [if_pos rfl, if_neg (by simpa using hl)]
      omega
    simp only [PyDate.replaceYear]
    rw [if_pos hok, if_neg hcond]
  · -- `replace` raises: the shifted birthday must be a leap-year February 29
    push_neg at hok
    have hm2 : (subDays b shift).month = 2 := by
      by_contra hm
      have heq : daysInMonth Y (subDays b shift).month
          = daysInMonth (subDays b shift).year (subDays b shift).month := by
        unfold daysInMonth
        rw [if_neg hm, if_neg hm]
      rw [heq] at hok
      omega
    rw [hm2] at hok h4
    have hd29 : (subDays b shift).day = 29 := by omega
    have hleapb : isLeapYear (subDays b shift).year = true := by
      by_contra hl
      have h28 : daysInMonth (subDays b shift).year 2 = 28 := by
        unfold daysInMonth
        rw [if_pos rfl, if_neg (by simpa using hl)]
      omega
    have hleapY : isLeapYear Y = false := by
      by_contra hl
      have h29 : daysInMonth Y 2 = 29 := by
        unfold daysInMonth
        rw [if_pos rfl, if_pos (by simpa using hl)]
      omega
    have hb0eq : subDays b shift = ⟨(subDays b shift).year, 2, 29⟩ := by
      cases hsb : subDays b shift
      rw [hsb] at hm2 hd29
      simp_all
    have hnext : addDays (subDays b shift) 1 = ⟨(subDays b shift).year, 3, 1⟩ := by
      have h1step : addDays (subDays b shift) 1 = nextDay (subDays b shift) :=
        Function.iterate_one nextDay ▸ rfl
      rw [h1step, hb0eq, nextDay_feb29 (hb0eq ▸ hleapb)]
    have h313 : daysInMonth Y 3 = 31 := by
      unfold daysInMonth
      norm_num
    simp only [PyDate.replaceYear, hnext]
    rw [if_neg (by rw [hm2, hd29]; omega)]
    rw [if_pos (show (1 : Nat) ≤ daysInMonth Y 3 by omega)]
    rw [if_pos (show (subDays b shift).month = 2 ∧ (subDays b shift).day = 29
        ∧ ¬ isLeapYear Y = true from
      ⟨hm2, hd29, by rw [hleapY]; exact Bool.false_ne_true⟩)]

/-- The contact loop of the birthday query is a pure filter by the spec's
window-membership predicate when every birthday is a valid date. -/
theorem birthdays_loop_eq_filter (shift : Nat) (t w : PyDate)
    (contacts : List Contact)
    (hv : ∀ c ∈ contacts, c.birthday.valid) :
    birthdays_loop shift t w contacts
      = some (contacts.filter (fun c =>
          dateLe t (specNormalize shift t.year c.birthday)
            && dateLt (specNormalize shift t.year c.birthday) w)) := by
  induction contacts with
  | nil => rfl
  | cons c rest ih =>
    have hc : c.birthday.valid := hv c (by simp)
    have hrest : ∀ x ∈ rest, x.birthday.valid := fun x hx => hv x (by simp [hx])
    rw [birthdays_loop, normalize_bday_eq shift t.year c.birthday hc, ih hrest,
      List.filter_cons]

/-! ## Claims -/

/-- Claim C5: for every contact list (of valid birthdays) and reference
date, the birthday-window calculator returns exactly the contacts whose
birthday (month/day, birth year ignored) falls in the half-open window
`[today, today+7)` — it is the filter by the spec's window-membership
predicate, raising no exception; in particular, among contacts with
birthdays at today+6, today+7, today−1 and today+8 (reference date
2023-03-15), exactly the today+6 contact is included. -/
theorem C5_birthday_window_is_spec_filter :
    (∀ (contacts : List Contact) (today : PyDate),
        (∀ c ∈ contacts, c.birthday.valid) →
        get_contact_birthdays_along_week contacts today
          = some (contacts.filter fun c => specBirthdayInWindow today c.birthday))
    ∧ get_contact_birthdays_along_week
        [⟨6, "six", "l", "e", "p", ⟨1990, 3, 21⟩, ""⟩,
         ⟨7, "seven", "l", "e", "p", ⟨1991, 3, 22⟩, ""⟩,
         ⟨1, "minusone", "l", "e", "p", ⟨1985, 3, 14⟩, ""⟩,
         ⟨8, "eight", "l", "e", "p", ⟨2000, 3, 23⟩, ""⟩] ⟨2023, 3, 15⟩
        = some [⟨6, "six", "l", "e", "p", ⟨1990, 3, 21⟩, ""⟩] := by
  constructor
  · intro contacts today hv
    have hmono := year_le_addDays today 7
    by_cases hy : today.year < (addDays today 7).year
    · have hne : today.year ≠ (addDays today 7).year := Nat.ne_of_lt hy
      have hcode : get_contact_birthdays_along_week contacts today
          = birthdays_loop 14 (subDays today 14) (subDays (addDays today 7) 14)
              contacts := by
        simp only [get_contact_birthdays_along_week]
        rw [if_pos hy]
      have hspec : (fun c : Contact => specBirthdayInWindow today c.birthday)
          = (fun c : Contact =>
              dateLe (subDays today 14)
                  (specNormalize 14 (subDays today 14).year c.birthday)
                && dateLt (specNormalize 14 (subDays today 14).year c.birthday)
                  (subDays (addDays today 7) 14)) := by
        funext c
        simp only [specBirthdayInWindow]
        rw [if_pos hne]
      rw [hcode, hspec]
      exact birthdays_loop_eq_filter 14 _ _ contacts hv
    · have heq : today.year = (addDays today 7).year :=
        Nat.le_antisymm hmono (Nat.not_lt.mp hy)
      have hne : ¬ today.year ≠ (addDays today 7).year := fun h => h heq
      have hcode : get_contact_birthdays_along_week contacts today
          = birthdays_loop 0 (subDays today 0) (subDays (addDays today 7) 0)
              contacts := by
        simp only [get_contact_birthdays_along_week]
        rw [if_neg hy]
      have hspec : (fun c : Contact => specBirthdayInWindow today c.birthday)
          = (fun c : Contact =>
              dateLe (subDays today 0)
                  (specNormalize 0 (subDays today 0).year c.birthday)
                && dateLt (specNormalize 0 (subDays today 0).year c.birthday)
                  (subDays (addDays today 7) 0)) := by
        funext c
        simp only [specBirthdayInWindow]
        rw [if_neg hne]
      rw [hcode, hspec]
      exact birthdays_loop_eq_filter 0 _ _ contacts hv
  · decide

/-- Witness for C5 at a concrete input: one valid birthday, reference date
2023-05-15. -/
theorem C5_birthday_window_is_spec_filter_witness :
    get_contact_birthdays_along_week
        [⟨1, "a", "b", "c", "d", ⟨2000, 5, 17⟩, ""⟩] ⟨2023, 5, 15⟩
      = some (List.filter (fun c => specBirthdayInWindow ⟨2023, 5, 15⟩ c.birthday)
          [⟨1, "a", "b", "c", "d", ⟨2000, 5, 17⟩, ""⟩]) :=
  C5_birthday_window_is_spec_filter.1
    [⟨1, "a", "b", "c", "d", ⟨2000, 5, 17⟩, ""⟩] ⟨2023, 5, 15⟩ (by decide)

/-- Claim C6: the two edge cases of the birthday-window calculator:
(1) a February 29 birthday normalized to a non-leap current year rolls
forward to March 1 instead of raising an error; (2) when today's year
differs from `(today+7)`'s year, the whole computation runs on the window
endpoints and every birthday shifted back exactly 14 days before the year
replacement and comparison; and concretely, at reference date 2023-12-30
(non-leap year), a contact born 2000-02-29 is normalized (after the 14-day
shift) to 2023-02-15 and appears in the result exactly when that date lies
in the shifted window — here it does not. -/
theorem C6_birthday_window_edge_cases :
    (∀ (Y : Nat) (b : PyDate), b.valid → b.month = 2 → b.day = 29 →
        isLeapYear Y = false →
        normalize_bday 0 Y b = some ⟨Y, 3, 1⟩)
    ∧ (∀ (contacts : List Contact) (today : PyDate),
        today.year < (addDays today 7).year →
        get_contact_birthdays_along_week contacts today
          = birthdays_loop 14 (subDays today 14) (subDays (addDays today 7) 14)
              contacts)
    ∧ (normalize_bday 14 2023 ⟨2000, 2, 29⟩ = some ⟨2023, 2, 15⟩
      ∧ ((get_contact_birthdays_along_week
            [⟨1, "n", "l", "e", "p", ⟨2000, 2, 29⟩, ""⟩] ⟨2023, 12, 30⟩
            = some [⟨1, "n", "l", "e", "p", ⟨2000, 2, 29⟩, ""⟩])
          ↔ (dateLe (subDays ⟨2023, 12, 30⟩ 14) ⟨2023, 2, 15⟩
              && dateLt ⟨2023, 2, 15⟩ (subDays (addDays ⟨2023, 12, 30⟩ 7) 14))
              = true)) := by
  refine ⟨?_, ?_, by decide, by decide⟩
  · intro Y b hb hm hd hl
    rw [normalize_bday_eq 0 Y b hb]
    simp only [specNormalize]
    rw [show subDays b 0 = b from rfl]
    rw [if_pos ⟨hm, hd, by rw [hl]; exact Bool.false_ne_true⟩]
  · intro contacts today hy
    simp only [get_contact_birthdays_along_week]
    rw [if_pos hy]

/-- Witness for C6 at a concrete input: a 2004-02-29 birthday normalized to
the non-leap year 2023 becomes 2023-03-01. -/
theorem C6_birthday_window_edge_cases_witness :
    normalize_bday 0 2023 ⟨2004, 2, 29⟩ = some ⟨2023, 3, 1⟩ :=
  C6_birthday_window_edge_cases.1 2023 ⟨2004, 2, 29⟩ (by decide) rfl rfl (by decide)

/-- Claim C8: token issuance sets the specified default lifetimes
(`expires_at` minus issuance time): 15 minutes for an access token with no
override, 7 days for a refresh token, 7 days for the email-confirmation
action token, 1 day for the password-reset action token; access and refresh
tokens carry their scope claim, action tokens carry none. -/
theorem C8_token_lifetimes (sub : String) (now : Nat) :
    ((Auth.create_access_token sub none now).exp
        - (Auth.create_access_token sub none now).iat = 15 * 60
      ∧ (Auth.create_access_token sub none now).scope = some "access_token")
    ∧ ((Auth.create_refresh_token sub none now).exp
        - (Auth.create_refresh_token sub none now).iat = 7 * 24 * 60 * 60
      ∧ (Auth.create_refresh_token sub none now).scope = some "refresh_token")
    ∧ ((email_service.send_email_verification_token sub now).exp
        - (email_service.send_email_verification_token sub now).iat = 7 * 24 * 60 * 60
      ∧ (email_service.send_email_verification_token sub now).scope = none)
    ∧ ((email_service.send_email_reset_password_token sub now).exp
        - (email_service.send_email_reset_password_token sub now).iat = 24 * 60 * 60
      ∧ (email_service.send_email_reset_password_token sub now).scope = none) := by
  refine ⟨⟨?_, rfl⟩, ⟨?_, rfl⟩, ⟨?_, rfl⟩, ⟨?_, rfl⟩⟩ <;>
    simp [Auth.create_access_token, Auth.create_refresh_token,
      Auth.create_email_token, email_service.send_email_verification_token,
      email_service.send_email_reset_password_token, Auth.truthy]

/-- Claim C9: a refresh request whose token decodes with scope refresh but
whose subject has no user in the store raises an uncaught `AttributeError`
(dereferencing `user.refresh_token` on `None`), not an Unauthorized
rejection. -/
theorem C9_refresh_missing_user_attribute_error
    (p : Payload) (db : Db) (now : Nat)
    (hscope : p.scope = some "refresh_token")
    (hexp : now < p.exp)
    (habsent : users.get_user_by_email p.sub db = none) :
    routes.refresh_token (Token.signed p) db now = (.error .attributeError, db) := by
  simp [routes.refresh_token, Auth.decode_refresh_token, jwt_decode,
    hexp, hscope, habsent]

/-- Witness for C9 at a concrete input: empty user store. -/
theorem C9_refresh_missing_user_attribute_error_witness :
    routes.refresh_token
        (Token.signed ⟨"bob@example.com", 0, 100, some "refresh_token"⟩) [] 0
      = (.error .attributeError, []) :=
  C9_refresh_missing_user_attribute_error
    ⟨"bob@example.com", 0, 100, some "refresh_token"⟩ [] 0 rfl (by decide) rfl

/-- Claim C10: `request_email` reads `user.confirmed` before the
`if user:` guard, so an absent user raises an uncaught `AttributeError`;
consequently the guarded send branch only ever runs for a present
(and unconfirmed) user. -/
theorem C10_request_email_absent_user_crash (email : String) (db : Db) :
    (users.get_user_by_email email db = none →
      routes.request_email email db = (.error .attributeError, false))
    ∧ ((routes.request_email email db).2 = true →
      ∃ u, users.get_user_by_email email db = some u ∧ u.confirmed = false) := by
  constructor
  · intro h
    simp [routes.request_email, h]
  · intro h
    unfold routes.request_email at h
    cases hu : users.get_user_by_email email db with
    | none => rw [hu] at h; simp at h
    | some u =>
      rw [hu] at h
      by_cases hc : u.confirmed
      · simp [hc] at h
      · exact ⟨u, rfl, by simpa using hc⟩

/-- Witness for C10 at a concrete input: empty user store. -/
theorem C10_request_email_absent_user_crash_witness :
    routes.request_email "alice@example.com" [] = (.error .attributeError, false) :=
  (C10_request_email_absent_user_crash "alice@example.com" []).1 rfl

/-- Claim C2: scope mismatch is a hard rejection: a well-signed, unexpired
refresh-scoped token is rejected by `get_current_user` with 401, a
well-signed access-scoped token is rejected by `decode_refresh_token` with
401, and `get_current_user` with an access-scoped token for an existing
user succeeds. -/
theorem C2_scope_mismatch_hard_rejection
    (p : Payload) (now : Nat) (hexp : now < p.exp) :
    (p.scope = some "refresh_token" →
      ∀ (rds : Auth.Redis) (db : Db),
        (Auth.get_current_user (Token.signed p) rds db now).1
          = .error Auth.credentials_exception)
    ∧ (p.scope = some "access_token" →
      Auth.decode_refresh_token (Token.signed p) now
        = .error (.http 401 "Invalid scope for token"))
    ∧ (p.scope = some "access_token" →
      ∀ (rds : Auth.Redis) (db : Db) (u : User),
        users.get_user_by_email p.sub db = some u →
        ∃ v, (Auth.get_current_user (Token.signed p) rds db now).1 = .ok v) := by
  refine ⟨?_, ?_, ?_⟩
  · intro hs rds db
    simp [Auth.get_current_user, jwt_decode, hexp, hs]
  · intro hs
    simp [Auth.decode_refresh_token, jwt_decode, hexp, hs]
  · intro hs rds db u hu
    unfold Auth.get_current_user
    simp only [jwt_decode, if_pos hexp, hs]
    cases hc : Auth.rds_get rds ("user:" ++ p.sub) now with
    | none => exact ⟨u, by simp [hc, hu]⟩
    | some v => exact ⟨v, by simp [hc]⟩

/-- Witness for C2 at a concrete input: a refresh-scoped token fed to
`get_current_user` is rejected 401. -/
theorem C2_scope_mismatch_hard_rejection_witness :
    (Auth.get_current_user
        (Token.signed ⟨"alice@example.com", 0, 100, some "refresh_token"⟩) [] [] 0).1
      = .error Auth.credentials_exception :=
  (C2_scope_mismatch_hard_rejection
      ⟨"alice@example.com", 0, 100, some "refresh_token"⟩ 0 (by decide)).1 rfl [] []

/-- Claim C4: `get_current_user` with a valid access-scoped token first
consults the session cache at the key built from the token's subject; a hit
returns the cached row with the cache and result independent of the
persistent store; a miss loads from the store, writes through with a
900-second TTL and returns the row; a miss with no stored user is a 401
rejection. -/
theorem C4_get_current_user_cache_behavior
    (p : Payload) (rds : Auth.Redis) (db : Db) (now : Nat)
    (hscope : p.scope = some "access_token")
    (hexp : now < p.exp) :
    (∀ v, Auth.rds_get rds ("user:" ++ p.sub) now = some v →
      ∀ db' : Db, Auth.get_current_user (Token.signed p) rds db' now = (.ok v, rds))
    ∧ (Auth.rds_get rds ("user:" ++ p.sub) now = none →
      (∀ u, users.get_user_by_email p.sub db = some u →
        Auth.get_current_user (Token.signed p) rds db now
          = (.ok u, Auth.rds_set_expire rds ("user:" ++ p.sub) u 900 now)
        ∧ ∀ later : Nat,
            Auth.rds_get (Auth.rds_set_expire rds ("user:" ++ p.sub) u 900 now)
                ("user:" ++ p.sub) later
              = if later < now + 900 then some u else none)
      ∧ (users.get_user_by_email p.sub db = none →
        Auth.get_current_user (Token.signed p) rds db now
          = (.error Auth.credentials_exception, rds))) := by
  refine ⟨?_, fun hmiss => ⟨?_, ?_⟩⟩
  · intro v hv db'
    simp [Auth.get_current_user, jwt_decode, hexp, hscope, hv]
  · intro u hu
    refine ⟨?_, fun later => rds_get_set_expire rds ("user:" ++ p.sub) u 900 now later⟩
    simp [Auth.get_current_user, jwt_decode, hexp, hscope, hmiss, hu]
  · intro hnone
    simp [Auth.get_current_user, jwt_decode, hexp, hscope, hmiss, hnone]

/-- Witness for C4 at a concrete input: a cache hit is served from the
cache over an empty persistent store. -/
theorem C4_get_current_user_cache_behavior_witness :
    Auth.get_current_user
        (Token.signed ⟨"alice@example.com", 0, 1000, some "access_token"⟩)
        [("user:alice@example.com",
          ⟨⟨1, "alice", "alice@example.com", "h", none, none, true⟩, 100⟩)] [] 5
      = (.ok ⟨1, "alice", "alice@example.com", "h", none, none, true⟩,
         [("user:alice@example.com",
           ⟨⟨1, "alice", "alice@example.com", "h", none, none, true⟩, 100⟩)]) :=
  (C4_get_current_user_cache_behavior
      ⟨"alice@example.com", 0, 1000, some "access_token"⟩
      [("user:alice@example.com",
        ⟨⟨1, "alice", "alice@example.com", "h", none, none, true⟩, 100⟩)]
      [] 5 rfl (by decide)).1
    ⟨1, "alice", "alice@example.com", "h", none, none, true⟩ (by decide) []

/-- Claim C7: email confirmation with a decodable action token: 400
`Verification error` when the recovered subject has no user; an idempotent
"already confirmed" answer with no state change when already confirmed;
otherwise the user's confirmed flag is set to true. -/
theorem C7_confirmed_email_behavior
    (p : Payload) (db : Db) (now : Nat) (hexp : now < p.exp) :
    (users.get_user_by_email p.sub db = none →
      routes.confirmed_email (Token.signed p) db now
        = (.error (.http 400 "Verification error"), db))
    ∧ (∀ u, users.get_user_by_email p.sub db = some u → u.confirmed = true →
      routes.confirmed_email (Token.signed p) db now
        = (.ok "Your email is already confirmed", db))
    ∧ (∀ u, users.get_user_by_email p.sub db = some u → u.confirmed = false →
      routes.confirmed_email (Token.signed p) db now
        = (.ok "Email confirmed",
           db.map fun v => if v.id = u.id then { v with confirmed := true } else v)) := by
  refine ⟨?_, ?_, ?_⟩
  · intro habsent
    simp [routes.confirmed_email, Auth.get_email_from_token, jwt_decode, hexp, habsent]
  · intro u hu hc
    simp [routes.confirmed_email, Auth.get_email_from_token, jwt_decode, hexp, hu, hc]
  · intro u hu hc
    simp [routes.confirmed_email, Auth.get_email_from_token, jwt_decode, hexp, hu, hc,
      users.confirmed_email]

/-- Witness for C7 at a concrete input: confirming an unconfirmed user sets
the flag. -/
theorem C7_confirmed_email_behavior_witness :
    routes.confirmed_email (Token.signed ⟨"alice@example.com", 0, 1000, none⟩)
        [⟨1, "alice", "alice@example.com", "h", none, none, false⟩] 5
      = (.ok "Email confirmed",
         [⟨1, "alice", "alice@example.com", "h", none, none, true⟩]) :=
  (C7_confirmed_email_behavior ⟨"alice@example.com", 0, 1000, none⟩
      [⟨1, "alice", "alice@example.com", "h", none, none, false⟩] 5 (by decide)).2.2
    ⟨1, "alice", "alice@example.com", "h", none, none, false⟩ (by decide) rfl

/-- Claim C3, actual behavior at a failing input: password-reset completion
with a decodable token whose subject exists never reaches the password
update; `users.reset_password_new` raises `NameError` on its first statement
(it reads the unbound name `email`), so the handler crashes and the store is
unchanged, instead of hashing and storing the new password. -/
theorem C3_reset_password_new_name_error :
    routes.reset_password_new
        (Token.signed ⟨"alice@example.com", 0, 1000, none⟩) "newsecret"
        [⟨1, "alice", "alice@example.com", "oldhash", none, none, true⟩] 5
      = (.error .nameError,
         [⟨1, "alice", "alice@example.com", "oldhash", none, none, true⟩]) := by
  decide

/-- Claim C1: the refresh workflow with a well-signed, unexpired
refresh-scoped token whose subject is a stored user: a mismatching presented
token clears the stored refresh token and is rejected 401
`Invalid refresh token`; a matching one yields a fresh access+refresh pair
and overwrites the stored refresh token with the new one, after which
presenting the old token (minted at an earlier instant) is rejected 401
`Invalid refresh token`. -/
theorem C1_refresh_rotation
    (p : Payload) (db : Db) (u : User) (now now₂ : Nat)
    (hscope : p.scope = some "refresh_token")
    (hexp : now < p.exp)
    (huser : users.get_user_by_email p.sub db = some u) :
    (u.refresh_token ≠ some (Token.signed p) →
      routes.refresh_token (Token.signed p) db now
        = (.error (.http 401 "Invalid refresh token"), users.update_token u none db)
      ∧ users.get_user_by_email p.sub (users.update_token u none db)
          = some { u with refresh_token := none })
    ∧ (u.refresh_token = some (Token.signed p) →
      routes.refresh_token (Token.signed p) db now
        = (.ok (Token.signed (Auth.create_access_token p.sub none now),
                Token.signed (Auth.create_refresh_token p.sub none now)),
           users.update_token u
             (some (Token.signed (Auth.create_refresh_token p.sub none now))) db)
      ∧ users.get_user_by_email p.sub
            (users.update_token u
              (some (Token.signed (Auth.create_refresh_token p.sub none now))) db)
          = some ({ u with refresh_token := some (Token.signed (Auth.create_refresh_token p.sub none now)) })
      ∧ (p.iat ≠ now → now₂ < p.exp →
          (routes.refresh_token (Token.signed p)
              (users.update_token u
                (some (Token.signed (Auth.create_refresh_token p.sub none now))) db)
              now₂).1
            = .error (.http 401 "Invalid refresh token"))) := by
  have hmap : ∀ tok : Option Token,
      users.get_user_by_email p.sub (users.update_token u tok db)
        = some { u with refresh_token := tok } := by
    intro tok
    have hgu := get_user_by_email_map
      (fun v => if v.id = u.id then { v with refresh_token := tok } else v)
      (by intro v; by_cases h : v.id = u.id <;> simp [h])
      p.sub db u huser
    simpa [users.update_token] using hgu
  constructor
  · intro hne
    refine ⟨?_, hmap none⟩
    simp [routes.refresh_token, Auth.decode_refresh_token, jwt_decode,
      hexp, hscope, huser, hne]
  · intro heq
    refine ⟨?_, hmap _, ?_⟩
    · simp [routes.refresh_token, Auth.decode_refresh_token, jwt_decode,
        hexp, hscope, huser, heq]
    · intro hiat hexp₂
      have hneq : some (Token.signed (Auth.create_refresh_token p.sub none now))
          ≠ some (Token.signed p) := by
        intro hcontra
        have htok : Token.signed (Auth.create_refresh_token p.sub none now)
            = Token.signed p := by injection hcontra
        have hpay : Auth.create_refresh_token p.sub none now = p := by
          injection htok
        exact hiat (congrArg Payload.iat hpay).symm
      simp [routes.refresh_token, Auth.decode_refresh_token, jwt_decode,
        hexp₂, hscope, hmap, hneq]

/-- Witness for C1 at a concrete input: after a successful rotation at time
5, presenting the old refresh token again at time 6 is rejected 401. -/
theorem C1_refresh_rotation_witness :
    (routes.refresh_token
        (Token.signed ⟨"alice@example.com", 0, 1000, some "refresh_token"⟩)
        (users.update_token
          ⟨1, "alice", "alice@example.com", "h", none,
            some (Token.signed ⟨"alice@example.com", 0, 1000, some "refresh_token"⟩),
            true⟩
          (some (Token.signed (Auth.create_refresh_token "alice@example.com" none 5)))
          [⟨1, "alice", "alice@example.com", "h", none,
            some (Token.signed ⟨"alice@example.com", 0, 1000, some "refresh_token"⟩),
            true⟩])
        6).1
      = .error (.http 401 "Invalid refresh token") :=
  ((C1_refresh_rotation ⟨"alice@example.com", 0, 1000, some "refresh_token"⟩
      [⟨1, "alice", "alice@example.com", "h", none,
        some (Token.signed ⟨"alice@example.com", 0, 1000, some "refresh_token"⟩),
        true⟩]
      ⟨1, "alice", "alice@example.com", "h", none,
        some (Token.signed ⟨"alice@example.com", 0, 1000, some "refresh_token"⟩),
        true⟩
      5 6 rfl (by decide) (by decide)).2 rfl).2.2 (by decide) (by decide)
